import Mathlib

/-!
# VoiceWave faster-whisper worker: a shallow embedding

This file embeds the request-orchestration layer of
`scripts/faster_whisper/worker.py` (the VoiceWave transcription worker) in
Lean 4 and proves properties of it.

Modelling choices:
* External collaborators (the `ctranslate2` capability probes, the Windows
  DLL loader, base64 decoding, the filesystem, the `WhisperModel` loader and
  its `transcribe` decode call, and the wall clock) are oracles: records of
  pure functions supplied as parameters.  Loaded model instances are `Nat`
  handles produced by the loader oracle.
* The worker's module-level mutable globals (`MODEL_CACHE`,
  `GPU_CAPABILITY_CACHE`, `CUDA_RUNTIME_LIBS_READY_CACHE`) become an explicit
  `WorkerState` threaded through every function, extended with a `log` of
  engine interactions so that "the engine was not touched" is expressible.
* Python `try`/`except` becomes `Except String`; an exception's `str()` text
  is the `.error` payload.
* Floating-point segment metrics become `Rat` (no rounding is relevant to
  any property proved here).
* A JSON request becomes the `Req` record: `Option` fields model keys that
  may be absent or `null`, defaulted exactly where `req.get(k, d)` defaults.
-/

deriving instance DecidableEq for Except

/-- An audio input as passed to the engine decode call: either normalized
samples decoded from an in-memory PCM16 payload (we keep the raw bytes; the
`/ 32768.0` normalization is irrelevant to every property here) or a
filesystem path. -/
inductive AudioInput where
  | pcm (bytes : List Nat)
  | path (p : String)
deriving DecidableEq, Repr

/-- One segment produced by the engine, with the attributes the worker
reads (`text`, `avg_logprob`, `no_speech_prob`, `compression_ratio`). -/
structure Segment where
  text : String
  avg_logprob : Rat
  no_speech_prob : Rat
  compression_ratio : Rat
deriving DecidableEq, Repr

/-- The keyword arguments the worker assembles for the engine decode call
(`transcribe_kwargs` in worker.py).  Optional thresholds are present exactly
when the caller provided them. -/
structure TranscribeKwargs where
  beam_size : Int
  best_of : Int
  language : String
  vad_filter : Bool
  condition_on_previous_text : Bool
  without_timestamps : Bool
  initial_prompt : Option String
  temperature : Option Rat
  no_speech_threshold : Option Rat
  log_prob_threshold : Option Rat
  compression_ratio_threshold : Option Rat
deriving DecidableEq, Repr

/-- A parsed protocol request (one JSON object).  `Option` marks fields the
code reads with a bare `req.get(...)` (absent / `null` collapse to `none`);
fields read with a `req.get(k, default)` carry the default in the embedding
functions, mirroring the Python access. -/
structure Req where
  command : Option String
  id : Option String
  modelId : Option String
  audioPath : Option String
  audioPcm16B64 : Option String
  sampleRateHz : Int
  computeType : String
  backendPreference : Option String
  allowBackendFallback : Bool
  beamSize : Int
  bestOf : Int
  language : String
  vadFilter : Bool
  conditionOnPreviousText : Bool
  withoutTimestamps : Bool
  initialPrompt : Option String
  temperature : Option Rat
  noSpeechThreshold : Option Rat
  logProbThreshold : Option Rat
  compressionRatioThreshold : Option Rat
deriving DecidableEq, Repr

/-- A request with every defaultable field at its worker default, used to
build concrete test requests. -/
def defaultReq : Req :=
  { command := none, id := none, modelId := none, audioPath := none,
    audioPcm16B64 := none, sampleRateHz := 16000, computeType := "int8",
    backendPreference := none, allowBackendFallback := true, beamSize := 2,
    bestOf := 1, language := "en", vadFilter := true,
    conditionOnPreviousText := false, withoutTimestamps := false,
    initialPrompt := none, temperature := none, noSpeechThreshold := none,
    logProbThreshold := none, compressionRatioThreshold := none }

/-- The success payload of a transcription response (worker.py lines
311-327). -/
structure SuccessBody where
  text : String
  modelInitMs : Nat
  decodeComputeMs : Nat
  runtimeCacheHit : Bool
  segmentCount : Nat
  avgLogProb : Rat
  noSpeechProb : Rat
  compressionRatio : Rat
  backendRequested : String
  backendUsed : String
  backendFallback : Bool
  computeTypeRequested : String
  computeTypeUsed : String
deriving DecidableEq, Repr

/-- The success payload of a prefetch response (worker.py lines 380-390). -/
structure PrefetchBody where
  modelInitMs : Nat
  runtimeCacheHit : Bool
  backendRequested : String
  backendUsed : String
  backendFallback : Bool
  computeTypeRequested : String
  computeTypeUsed : String
deriving DecidableEq, Repr

/-- One output line of the worker.  `failureTb` is the outermost-loop
failure envelope that carries a `traceback` field; `ready` is the startup
signal; `shutdownAck` is the `{"ok": true, "shutdown": true}` object (note:
it has no `id` member). -/
inductive Response where
  | transcribeOk (id : Option String) (body : SuccessBody)
  | prefetchOk (id : Option String) (body : PrefetchBody)
  | failure (id : Option String) (error : String)
  | failureTb (id : Option String) (error : String) (tb : String)
  | ready
  | shutdownAck
deriving DecidableEq, Repr

/-- The `id` member of a response object, when the object has one. -/
def Response.idField : Response → Option (Option String)
  | .transcribeOk i _ => some i
  | .prefetchOk i _ => some i
  | .failure i _ => some i
  | .failureTb i _ _ => some i
  | .ready => none
  | .shutdownAck => none

/-- The `ok` member of a response object. -/
def Response.okField : Response → Bool
  | .transcribeOk _ _ => true
  | .prefetchOk _ _ => true
  | .failure _ _ => false
  | .failureTb _ _ _ => false
  | .ready => true
  | .shutdownAck => true

/-- The `backendUsed` member, for responses that report one. -/
def Response.backendUsedField : Response → Option String
  | .transcribeOk _ b => some b.backendUsed
  | .prefetchOk _ b => some b.backendUsed
  | _ => none

/-- The `backendFallback` member, for responses that report one. -/
def Response.backendFallbackField : Response → Option Bool
  | .transcribeOk _ b => some b.backendFallback
  | .prefetchOk _ b => some b.backendFallback
  | _ => none

/-- The `runtimeCacheHit` member, for responses that report one. -/
def Response.runtimeCacheHitField : Response → Option Bool
  | .transcribeOk _ b => some b.runtimeCacheHit
  | .prefetchOk _ b => some b.runtimeCacheHit
  | _ => none

/-- The `modelInitMs` member, for responses that report one. -/
def Response.modelInitMsField : Response → Option Nat
  | .transcribeOk _ b => some b.modelInitMs
  | .prefetchOk _ b => some b.modelInitMs
  | _ => none

/-- The key of `MODEL_CACHE`: `(model_id, device, compute_type)`. -/
abbrev ModelKey := String × String × String

/-- One recorded interaction with the external engine: a `WhisperModel`
constructor call or a `model.transcribe` decode call. -/
inductive EngineCall where
  | load (model_id device compute_type : String)
  | decode (model : Nat)
deriving DecidableEq, Repr

/-- The worker's mutable module state: `MODEL_CACHE` (an association list,
newest entry first), the two memoized probe results, and a log of engine
interactions (the log has no counterpart in the source; it only records
which external calls were made). -/
structure WorkerState where
  modelCache : List (ModelKey × Nat)
  gpuCapabilityCache : Option Bool
  cudaRuntimeLibsReadyCache : Option Bool
  log : List EngineCall
deriving DecidableEq, Repr

/-- The state of a freshly started worker process. -/
def initialState : WorkerState :=
  { modelCache := [], gpuCapabilityCache := none,
    cudaRuntimeLibsReadyCache := none, log := [] }

/-- The environment variables the worker reads, as raw string values
(`none` = unset): `VOICEWAVE_FORCE_CPU`, `VOICEWAVE_FORCE_GPU`,
`VOICEWAVE_AUTO_GPU`. -/
structure Env where
  forceCpu : Option String
  forceGpu : Option String
  autoGpu : Option String
deriving DecidableEq, Repr

/-- The platform oracle: results of the external probes and host services.
`getCudaDeviceCount` and `getSupportedComputeTypes` return `none` when the
underlying call raises; `ctranslate2Present` is whether importing
`ctranslate2` succeeded; `b64decode` returns the decoded bytes or the
exception text. -/
structure PlatformOracle where
  ctranslate2Present : Bool
  getCudaDeviceCount : Option Nat
  getSupportedComputeTypes : String → Option (List String)
  winDllLoads : String → Bool
  b64decode : String → Except String (List Nat)
  pathExists : String → Bool

/-- The engine oracle: the `WhisperModel` constructor (`loadModel`, returning
a model handle or the exception text), the measured constructor duration
(`loadMs`), the decode call on a loaded model, and the measured wall-clock
of the decode block (`decodeMsClock`). -/
structure EngineOracle where
  loadModel : String → String → String → Except String Nat
  loadMs : String → String → String → Nat
  decode : Nat → AudioInput → TranscribeKwargs → Except String (List Segment)
  decodeMsClock : Nat

/-- Python `str.strip()` (whitespace on both ends), written over the
character list so that it evaluates inside the kernel. -/
def pyStrip (s : String) : String :=
  String.mk ((s.data.dropWhile Char.isWhitespace).reverse.dropWhile Char.isWhitespace).reverse

/-- Python `str.lower()` (ASCII case folding, which is all the worker's
tokens need), written over the character list so that it evaluates inside
the kernel. -/
def pyLower (s : String) : String := String.mk (s.data.map Char.toLower)

/-- `ALLOWED_MODELS` (worker.py line 19). -/
def ALLOWED_MODELS : List String := ["small.en", "large-v3"]

/-- `env_flag` (worker.py lines 24-33). -/
def env_flag (value : Option String) (default_value : Bool) : Bool :=
  match value with
  | none => default_value
  | some v =>
    let normalized := pyLower (pyStrip v)
    if ["1", "true", "yes", "on"].contains normalized then true
    else if ["0", "false", "no", "off"].contains normalized then false
    else default_value

/-- `normalize_backend_preference` (worker.py lines 36-40).  The
`raw_backend or "auto"` Python idiom also replaces an empty string. -/
def normalize_backend_preference (raw_backend : Option String) : String :=
  let base := match raw_backend with
    | none => "auto"
    | some s => if s = "" then "auto" else s
  let normalized := pyLower (pyStrip base)
  if ["cpu", "cuda", "auto"].contains normalized then normalized else "auto"

/-- The value computed by the body of `cuda_available` on a cache miss
(worker.py lines 47-53): `false` when `ctranslate2` is missing or the count
query raises, else whether the device count is positive. -/
def cuda_available_raw (po : PlatformOracle) : Bool :=
  if po.ctranslate2Present = false then false
  else
    match po.getCudaDeviceCount with
    | none => false
    | some n => decide (0 < n)

/-- `cuda_available` (worker.py lines 43-54), memoizing into
`GPU_CAPABILITY_CACHE`. -/
def cuda_available (po : PlatformOracle) (st : WorkerState) : Bool × WorkerState :=
  match st.gpuCapabilityCache with
  | some b => (b, st)
  | none =>
    let b := cuda_available_raw po
    (b, { st with gpuCapabilityCache := some b })

/-- The value computed by the body of `cuda_runtime_libs_ready` on a cache
miss (worker.py lines 62-81): `true` if the ctranslate2 CUDA compute-type
query succeeds with a non-empty list, else whether every required CUDA DLL
loads. -/
def cuda_runtime_libs_ready_raw (po : PlatformOracle) : Bool :=
  let viaCt2 :=
    if po.ctranslate2Present then
      match po.getSupportedComputeTypes "cuda" with
      | some supported => decide (supported ≠ [])
      | none => false
    else false
  if viaCt2 then true
  else ["cublas64_12.dll"].all (fun dll => po.winDllLoads dll)

/-- `cuda_runtime_libs_ready` (worker.py lines 57-81), memoizing into
`CUDA_RUNTIME_LIBS_READY_CACHE`. -/
def cuda_runtime_libs_ready (po : PlatformOracle) (st : WorkerState) : Bool × WorkerState :=
  match st.cudaRuntimeLibsReadyCache with
  | some b => (b, st)
  | none =>
    let b := cuda_runtime_libs_ready_raw po
    (b, { st with cudaRuntimeLibsReadyCache := some b })

/-- `resolve_requested_backend` (worker.py lines 84-100).  The `and` on line
98 short-circuits: the runtime-libs probe only runs when the device probe
answered `true`. -/
def resolve_requested_backend (env : Env) (po : PlatformOracle) (st : WorkerState)
    (raw_backend : Option String) : String × WorkerState :=
  if env_flag env.forceCpu false then ("cpu", st)
  else if env_flag env.forceGpu false then ("cuda", st)
  else
    let pref := normalize_backend_preference raw_backend
    if pref = "cpu" then ("cpu", st)
    else if pref = "cuda" then ("cuda", st)
    else if env_flag env.autoGpu true = false then ("cpu", st)
    else
      let avail := cuda_available po st
      if avail.1 then
        let ready := cuda_runtime_libs_ready po avail.2
        (if ready.1 then "cuda" else "cpu", ready.2)
      else ("cpu", avail.2)

/-- `supported_compute_types` (worker.py lines 103-109): empty when
`ctranslate2` is missing or the query raises.  (Python returns a `set`; only
membership and emptiness are ever used, so a list is a faithful model.) -/
def supported_compute_types (po : PlatformOracle) (device : String) : List String :=
  if po.ctranslate2Present = false then []
  else
    match po.getSupportedComputeTypes device with
    | some l => l
    | none => []

/-- `resolve_compute_type` (worker.py lines 112-137).  Note the
normalization on line 113: the requested type is defaulted (when empty),
stripped and lowercased before any comparison. -/
def resolve_compute_type (po : PlatformOracle) (device : String)
    (requested_compute_type : String) : String :=
  let requested :=
    pyLower (pyStrip (if requested_compute_type = "" then "int8" else requested_compute_type))
  let supported := supported_compute_types po device
  if supported = [] then requested
  else if supported.contains requested then requested
  else
    let preference :=
      if device = "cuda" then
        ["int8_float16", "float16", "int8", "float32", "int8_float32"]
      else
        ["int8", "int8_float32", "float32"]
    match preference.find? (fun candidate => supported.contains candidate) with
    | some candidate => candidate
    | none => requested

/-- `load_model` (worker.py lines 140-150).  Returns the model handle, the
cache-hit flag and the measured load duration; a raising `WhisperModel`
constructor becomes `.error` and caches nothing. -/
def load_model (eo : EngineOracle) (st : WorkerState)
    (model_id device compute_type : String) :
    Except String (Nat × Bool × Nat) × WorkerState :=
  let key : ModelKey := (model_id, device, compute_type)
  match st.modelCache.lookup key with
  | some cached => (.ok (cached, true, 0), st)
  | none =>
    let st' := { st with log := st.log ++ [EngineCall.load model_id device compute_type] }
    match eo.loadModel model_id device compute_type with
    | .error e => (.error e, st')
    | .ok model =>
      (.ok (model, false, eo.loadMs model_id device compute_type),
       { st' with modelCache := (key, model) :: st'.modelCache })

/-- The audio-validation block of `transcribe` (worker.py lines 197-221):
prefer a non-blank in-memory PCM payload (base64-decoded, even byte length
required), else an existing audio path, else fail. -/
def audio_input_of (po : PlatformOracle) (audio_path audio_pcm16_b64 : Option String) :
    Except String AudioInput :=
  let pathBranch : Except String AudioInput :=
    match audio_path with
    | some p =>
      if p ≠ "" ∧ po.pathExists p then .ok (AudioInput.path p)
      else .error "Audio payload is missing. Provide audioPcm16B64 or a valid audioPath."
    | none => .error "Audio payload is missing. Provide audioPcm16B64 or a valid audioPath."
  match audio_pcm16_b64 with
  | some b64 =>
    if pyStrip b64 = "" then pathBranch
    else
      match po.b64decode b64 with
      | .error exc => .error ("Invalid in-memory PCM payload: " ++ exc)
      | .ok pcm_bytes =>
        if pcm_bytes.length % 2 ≠ 0 then .error "Invalid in-memory PCM payload length."
        else .ok (AudioInput.pcm pcm_bytes)
  | none => pathBranch

/-- The kwargs assembly of `transcribe` (worker.py lines 173-176 and
229-247), including the initial-prompt strip-or-drop normalization. -/
def transcribe_kwargs_of (req : Req) : TranscribeKwargs :=
  let initial_prompt :=
    match req.initialPrompt with
    | some s => if pyStrip s = "" then none else some (pyStrip s)
    | none => none
  { beam_size := req.beamSize, best_of := req.bestOf, language := req.language,
    vad_filter := req.vadFilter,
    condition_on_previous_text := req.conditionOnPreviousText,
    without_timestamps := req.withoutTimestamps, initial_prompt := initial_prompt,
    temperature := req.temperature, no_speech_threshold := req.noSpeechThreshold,
    log_prob_threshold := req.logProbThreshold,
    compression_ratio_threshold := req.compressionRatioThreshold }

/-- One load-plus-decode attempt: the shared body of the two `try` blocks of
`transcribe` (worker.py lines 252-257 and 269-276).  Returns the decode
outcome together with this attempt's cache-hit flag and load duration;
when the load itself raises they are `false` and `0`, matching the Python
locals that keep their pre-`try` initializers in that case (lines 250-251). -/
def decode_attempt (eo : EngineOracle) (st : WorkerState)
    (model_id device compute_type : String) (audio : AudioInput)
    (kwargs : TranscribeKwargs) :
    (Except String (List Segment) × Bool × Nat) × WorkerState :=
  let lr := load_model eo st model_id device compute_type
  match lr.1 with
  | .error e => ((.error e, false, 0), lr.2)
  | .ok x =>
    let st2 := { lr.2 with log := lr.2.log ++ [EngineCall.decode x.1] }
    match eo.decode x.1 audio kwargs with
    | .error e => ((.error e, x.2.1, x.2.2), st2)
    | .ok segments => ((.ok segments, x.2.1, x.2.2), st2)

/-- The aggregation and success-envelope assembly of `transcribe`
(worker.py lines 289-327): join non-empty trimmed segment texts with
spaces, and take the arithmetic mean (0 when empty) of each metric list. -/
def aggregate_success (request_id : Option String) (segments : List Segment)
    (model_init_ms decode_ms : Nat) (runtime_cache_hit : Bool)
    (backend_requested backend_used : String) (backend_fallback : Bool)
    (compute_type_requested compute_type_used : String) : Response :=
  let parts := (segments.map (fun s => pyStrip s.text)).filter (fun t => t ≠ "")
  let avg_logprobs := segments.map (fun s => s.avg_logprob)
  let no_speech_probs := segments.map (fun s => s.no_speech_prob)
  let compression_ratios := segments.map (fun s => s.compression_ratio)
  let mean : List Rat → Rat := fun l => if l = [] then 0 else l.sum / (l.length : Rat)
  Response.transcribeOk request_id
    { text := pyStrip (String.intercalate " " parts),
      modelInitMs := model_init_ms,
      decodeComputeMs := decode_ms,
      runtimeCacheHit := runtime_cache_hit,
      segmentCount := segments.length,
      avgLogProb := mean avg_logprobs,
      noSpeechProb := mean no_speech_probs,
      compressionRatio := mean compression_ratios,
      backendRequested := backend_requested,
      backendUsed := backend_used,
      backendFallback := backend_fallback,
      computeTypeRequested := compute_type_requested,
      computeTypeUsed := compute_type_used }

/-- `transcribe` (worker.py lines 153-327): validation, audio handling,
backend/compute-type resolution, first attempt, single GPU→CPU fallback,
and response assembly. -/
def transcribe (env : Env) (po : PlatformOracle) (eo : EngineOracle)
    (st : WorkerState) (req : Req) : Response × WorkerState :=
  let request_id := req.id
  match req.modelId with
  | none => (Response.failure request_id "Model ID is required.", st)
  | some model_id =>
    if model_id = "" then (Response.failure request_id "Model ID is required.", st)
    else if ALLOWED_MODELS.contains model_id = false then
      (Response.failure request_id
        ("Unsupported model ID: " ++ model_id ++ ". Allowed: small.en, large-v3"), st)
    else if req.sampleRateHz ≠ 16000 then
      (Response.failure request_id
        ("Unsupported sample rate: " ++ toString req.sampleRateHz ++ ". Expected 16000 Hz."),
       st)
    else
      match audio_input_of po req.audioPath req.audioPcm16B64 with
      | .error e => (Response.failure request_id e, st)
      | .ok audio_input =>
        let rb := resolve_requested_backend env po st req.backendPreference
        let backend_requested := rb.1
        let compute_type_requested := req.computeType
        let compute_type_used := resolve_compute_type po backend_requested compute_type_requested
        let kwargs := transcribe_kwargs_of req
        let fa := decode_attempt eo rb.2 model_id backend_requested compute_type_used
          audio_input kwargs
        match fa.1.1 with
        | .ok segments =>
          (aggregate_success request_id segments fa.1.2.2 eo.decodeMsClock fa.1.2.1
            backend_requested backend_requested false compute_type_requested
            compute_type_used, fa.2)
        | .error first_err =>
          if backend_requested ≠ "cuda" ∨ req.allowBackendFallback = false then
            (Response.failure request_id
              ("Transcription failed (" ++ backend_requested ++ "/" ++ compute_type_used
                ++ "): " ++ first_err), fa.2)
          else
            let compute_type_used2 := resolve_compute_type po "cpu" compute_type_requested
            let fb := decode_attempt eo fa.2 model_id "cpu" compute_type_used2
              audio_input kwargs
            match fb.1.1 with
            | .ok segments =>
              (aggregate_success request_id segments (fa.1.2.2 + fb.1.2.2)
                eo.decodeMsClock (fa.1.2.1 && fb.1.2.1) backend_requested "cpu" true
                compute_type_requested compute_type_used2, fb.2)
            | .error fallback_err =>
              (Response.failure request_id
                ("Transcription failed (" ++ backend_requested ++ "/"
                  ++ compute_type_requested ++ ") with fallback (" ++ "cpu" ++ "/"
                  ++ compute_type_used2 ++ "): " ++ fallback_err), fb.2)

/-- `prefetch` (worker.py lines 330-390): model-id validation, resolution,
one load with the same single GPU→CPU fallback, no decode.  In the fallback
branch the first load necessarily raised, so the Python accumulators enter
it at their initializers `0` and `False` (lines 349-350). -/
def prefetch (env : Env) (po : PlatformOracle) (eo : EngineOracle)
    (st : WorkerState) (req : Req) : Response × WorkerState :=
  let request_id := req.id
  match req.modelId with
  | none => (Response.failure request_id "Model ID is required.", st)
  | some model_id =>
    if model_id = "" then (Response.failure request_id "Model ID is required.", st)
    else if ALLOWED_MODELS.contains model_id = false then
      (Response.failure request_id
        ("Unsupported model ID: " ++ model_id ++ ". Allowed: small.en, large-v3"), st)
    else
      let rb := resolve_requested_backend env po st req.backendPreference
      let backend_requested := rb.1
      let compute_type_requested := req.computeType
      let compute_type_used := resolve_compute_type po backend_requested compute_type_requested
      let lr := load_model eo rb.2 model_id backend_requested compute_type_used
      match lr.1 with
      | .ok x =>
        (Response.prefetchOk request_id
          { modelInitMs := x.2.2, runtimeCacheHit := x.2.1,
            backendRequested := backend_requested, backendUsed := backend_requested,
            backendFallback := false, computeTypeRequested := compute_type_requested,
            computeTypeUsed := compute_type_used }, lr.2)
      | .error first_err =>
        if backend_requested ≠ "cuda" ∨ req.allowBackendFallback = false then
          (Response.failure request_id
            ("Prefetch failed (" ++ backend_requested ++ "/" ++ compute_type_used
              ++ "): " ++ first_err), lr.2)
        else
          let compute_type_used2 := resolve_compute_type po "cpu" compute_type_requested
          let lr2 := load_model eo lr.2 model_id "cpu" compute_type_used2
          match lr2.1 with
          | .ok x2 =>
            (Response.prefetchOk request_id
              { modelInitMs := 0 + x2.2.2, runtimeCacheHit := false && x2.2.1,
                backendRequested := backend_requested, backendUsed := "cpu",
                backendFallback := true, computeTypeRequested := compute_type_requested,
                computeTypeUsed := compute_type_used2 }, lr2.2)
          | .error fallback_err =>
            (Response.failure request_id
              ("Prefetch failed (" ++ backend_requested ++ "/" ++ compute_type_requested
                ++ ") with fallback (" ++ "cpu" ++ "/" ++ compute_type_used2 ++ "): "
                ++ fallback_err), lr2.2)

/-- One protocol input line, as the loop body of `main` sees it after
reading and stripping.  `malformed` stands for a line on which `json.loads`
(or anything else inside the per-line `try`) raised, carrying the exception
text and the formatted traceback; our embedded handlers are total, so every
in-handler exception path of the source is represented by this constructor. -/
inductive InLine where
  | blank
  | malformed (exc : String) (tb : String)
  | request (r : Req)
deriving DecidableEq, Repr

/-- The loop body of `main` (worker.py lines 396-434) on one input line:
the responses printed for it, the new state, and whether the loop returns
(only the `shutdown` command stops it). -/
def handle_line (env : Env) (po : PlatformOracle) (eo : EngineOracle)
    (st : WorkerState) (l : InLine) : List Response × WorkerState × Bool :=
  match l with
  | .blank => ([], st, false)
  | .malformed exc tb =>
    ([Response.failureTb none ("Worker exception: " ++ exc) tb], st, false)
  | .request req =>
    let command := req.command.getD "transcribe"
    if command = "shutdown" then ([Response.shutdownAck], st, true)
    else if command = "prefetch" then
      ([(prefetch env po eo st req).1], (prefetch env po eo st req).2, false)
    else if command ≠ "transcribe" then
      ([Response.failure req.id ("Unsupported command: " ++ command)], st, false)
    else
      ([(transcribe env po eo st req).1], (transcribe env po eo st req).2, false)

/-- The read loop of `main` (worker.py lines 395-435) over a list of input
lines, also returning the final worker state (the source keeps it in module
globals). -/
def run_lines (env : Env) (po : PlatformOracle) (eo : EngineOracle) :
    WorkerState → List InLine → List Response × WorkerState
  | st, [] => ([], st)
  | st, l :: rest =>
    let step := handle_line env po eo st l
    if step.2.2 then (step.1, step.2.1)
    else
      let tail := run_lines env po eo step.2.1 rest
      (step.1 ++ tail.1, tail.2)

/-- `main` (worker.py lines 393-435): the ready signal followed by the loop
output. -/
def worker_main (env : Env) (po : PlatformOracle) (eo : EngineOracle)
    (lines : List InLine) : List Response :=
  Response.ready :: (run_lines env po eo initialState lines).1

/-! ## Probe memoization lemmas -/

/-- The value `cuda_available` returns: the memoized answer when present,
else the raw probe. -/
lemma cuda_available_fst (po : PlatformOracle) (st : WorkerState) :
    (cuda_available po st).1 = st.gpuCapabilityCache.getD (cuda_available_raw po) := by
  cases h : st.gpuCapabilityCache <;> simp [cuda_available, h]

/-- `cuda_available` only writes the GPU-capability cache. -/
lemma cuda_available_runtimeCache (po : PlatformOracle) (st : WorkerState) :
    (cuda_available po st).2.cudaRuntimeLibsReadyCache = st.cudaRuntimeLibsReadyCache := by
  cases h : st.gpuCapabilityCache <;> simp [cuda_available, h]

/-- The value `cuda_runtime_libs_ready` returns: the memoized answer when
present, else the raw probe. -/
lemma cuda_runtime_libs_ready_fst (po : PlatformOracle) (st : WorkerState) :
    (cuda_runtime_libs_ready po st).1 =
      st.cudaRuntimeLibsReadyCache.getD (cuda_runtime_libs_ready_raw po) := by
  cases h : st.cudaRuntimeLibsReadyCache <;> simp [cuda_runtime_libs_ready, h]

/-! ## C2: backend resolution follows the spec's priority order -/

/-- `resolveBackend` as §4.2 of the specification words it: force-CPU, then
force-GPU, then a verbatim explicit preference, then the auto-GPU
configuration gate, then the conjunction of the two probe answers; garbled
preferences normalize to `auto` and fall through.  (Definition written from
the spec, to be compared with `resolve_requested_backend` from the source.) -/
def resolveBackendSpec (env : Env) (po : PlatformOracle) (st : WorkerState)
    (raw : Option String) : String :=
  if env_flag env.forceCpu false then "cpu"
  else if env_flag env.forceGpu false then "cuda"
  else
    let pref := normalize_backend_preference raw
    if pref = "cpu" ∨ pref = "cuda" then pref
    else if env_flag env.autoGpu true = false then "cpu"
    else if (cuda_available po st).1 && (cuda_runtime_libs_ready po st).1 then "cuda"
    else "cpu"

/-- C2: for every backend preference string and every override/probe state,
`resolve_requested_backend` returns `"cpu"` or `"cuda"` according to the
spec's priority order: force-CPU override, then force-GPU override, then an
explicit `cpu`/`cuda` preference verbatim, then `cpu` when auto-GPU is
disabled, else `cuda` exactly when the probe reports both a GPU device and
loadable runtime libraries; garbled preferences normalize to `auto` and
fall through to the last two steps. -/
theorem resolve_requested_backend_follows_spec (env : Env) (po : PlatformOracle)
    (st : WorkerState) (raw : Option String) :
    (resolve_requested_backend env po st raw).1 = resolveBackendSpec env po st raw ∧
    ((resolve_requested_backend env po st raw).1 = "cpu" ∨
      (resolve_requested_backend env po st raw).1 = "cuda") := by
  have hready : (cuda_runtime_libs_ready po (cuda_available po st).2).1 =
      (cuda_runtime_libs_ready po st).1 := by
    rw [cuda_runtime_libs_ready_fst, cuda_runtime_libs_ready_fst,
      cuda_available_runtimeCache]
  by_cases h1 : env_flag env.forceCpu false <;>
    by_cases h2 : env_flag env.forceGpu false <;>
    by_cases h3 : normalize_backend_preference raw = "cpu" <;>
    by_cases h4 : normalize_backend_preference raw = "cuda" <;>
    by_cases h5 : env_flag env.autoGpu true = false <;>
    by_cases h6 : (cuda_available po st).1 = true <;>
    by_cases h7 : (cuda_runtime_libs_ready po st).1 = true <;>
    simp [resolve_requested_backend, resolveBackendSpec, h1, h2, h3, h4, h5, h6, h7,
      hready]

/-! ## C4: compute-type negotiation identity cases -/

/-- C4 (amended): `resolve_compute_type` first normalizes the requested
type (empty defaults to `"int8"`, then strip and lowercase); it returns
that normalized requested type unchanged when the supported set for the
device is empty, and when the normalized requested type is in the supported
set.  (The raw requested string is returned unchanged only when it is
already in normal form.) -/
theorem resolve_compute_type_identity_normalized (po : PlatformOracle)
    (device r : String)
    (h : supported_compute_types po device = [] ∨
      (supported_compute_types po device).contains
        (pyLower (pyStrip (if r = "" then "int8" else r))) = true) :
    resolve_compute_type po device r = pyLower (pyStrip (if r = "" then "int8" else r)) := by
  unfold resolve_compute_type
  rcases h with h | h
  · simp [h]
  · by_cases he : supported_compute_types po device = []
    · simp [he]
    · have hmem : pyLower (pyStrip (if r = "" then "int8" else r)) ∈
          supported_compute_types po device := by
        simpa using h
      simp [he, hmem]

/-- A platform where the `ctranslate2` import failed: every supported-type
set is empty and no CUDA probe succeeds. -/
def poNoCt2 : PlatformOracle :=
  { ctranslate2Present := false, getCudaDeviceCount := none,
    getSupportedComputeTypes := fun _ => none, winDllLoads := fun _ => false,
    b64decode := fun _ => .error "binascii.Error: invalid base64", pathExists := fun _ => false }

/-- C4 counterexample: with an empty supported set, the requested string
`"INT8"` is not returned unchanged — the function returns its lowercased
normalization `"int8"`, so `resolve_compute_type` is not the identity on
the raw requested string. -/
theorem resolve_compute_type_not_raw_identity :
    supported_compute_types poNoCt2 "cpu" = [] ∧
    resolve_compute_type poNoCt2 "cpu" "INT8" = "int8" ∧
    ("INT8" : String) ≠ "int8" := by
  refine ⟨rfl, rfl, ?_⟩
  decide

/-- Witness for the amended C4 theorem at a concrete input: an empty
supported set with an already-normalized request is returned unchanged. -/
theorem resolve_compute_type_identity_normalized_witness :
    resolve_compute_type poNoCt2 "cuda" "float16" = "float16" :=
  (resolve_compute_type_identity_normalized poNoCt2 "cuda" "float16"
    (Or.inl rfl)).trans (by decide)

/-! ## C3: a `cpu` preference stays on the CPU backend -/

/-- With an explicit `cpu` preference, the resolver answers `cpu` without
touching the probes — provided no force-GPU override preempts it (a
force-CPU override is also fine, it answers `cpu` directly). -/
lemma resolve_requested_backend_cpu_pref (env : Env) (po : PlatformOracle)
    (st : WorkerState)
    (hgpu : env_flag env.forceGpu false = false ∨ env_flag env.forceCpu false = true) :
    resolve_requested_backend env po st (some "cpu") = ("cpu", st) := by
  have hpref : normalize_backend_preference (some "cpu") = "cpu" := rfl
  rcases hgpu with h | h
  · by_cases hc : env_flag env.forceCpu false <;>
      simp [resolve_requested_backend, h, hc, hpref]
  · simp [resolve_requested_backend, h]

/-- Structure of every success envelope `transcribe` emits: its
`backendRequested` is the resolver's answer; without fallback the used
backend is the requested one; with fallback the used backend is `cpu`, the
requested one was `cuda`, and fallback was permitted. -/
lemma transcribe_ok_shape (env : Env) (po : PlatformOracle) (eo : EngineOracle)
    (st : WorkerState) (req : Req) (i : Option String) (b : SuccessBody)
    (hres : (transcribe env po eo st req).1 = Response.transcribeOk i b) :
    b.backendRequested = (resolve_requested_backend env po st req.backendPreference).1 ∧
    (b.backendFallback = false → b.backendUsed = b.backendRequested) ∧
    (b.backendFallback = true →
      b.backendUsed = "cpu" ∧ b.backendRequested = "cuda" ∧
        req.allowBackendFallback = true) := by
  unfold transcribe at hres
  repeat' split at hres
  all_goals try simp_all [aggregate_success]
  all_goals repeat' split at hres
  all_goals try simp_all [aggregate_success]
  all_goals (obtain ⟨h1, h2⟩ := hres; subst h2; simp_all)

/-- C3 (amended): for every transcribe request with `backendPreference`
`"cpu"`, as long as no force-GPU override preempts the preference, every
success envelope reports `backendUsed = "cpu"` and
`backendFallback = false`.  (A force-GPU override outranks the per-request
preference and sends the request to `cuda`.) -/
theorem transcribe_cpu_pref_stays_cpu (env : Env) (po : PlatformOracle)
    (eo : EngineOracle) (st : WorkerState) (req : Req)
    (hgpu : env_flag env.forceGpu false = false ∨ env_flag env.forceCpu false = true)
    (hpref : req.backendPreference = some "cpu") :
    ∀ i b, (transcribe env po eo st req).1 = Response.transcribeOk i b →
      b.backendUsed = "cpu" ∧ b.backendFallback = false := by
  intro i b hres
  obtain ⟨hbr, hnof, hfb⟩ := transcribe_ok_shape env po eo st req i b hres
  rw [hpref, resolve_requested_backend_cpu_pref env po st hgpu] at hbr
  cases hf : b.backendFallback with
  | false => exact ⟨(hnof hf).trans hbr, rfl⟩
  | true =>
    obtain ⟨-, hcuda, -⟩ := hfb hf
    rw [hbr] at hcuda
    simp at hcuda

/-- An engine where every load and decode succeeds: the handle is 1, loads
take 5 ms, decodes return no segments, and the decode block is clocked at
7 ms. -/
def eoAllOk : EngineOracle :=
  { loadModel := fun _ _ _ => .ok 1, loadMs := fun _ _ _ => 5,
    decode := fun _ _ _ => .ok [], decodeMsClock := 7 }

/-- `poNoCt2` with every filesystem path reported as existing. -/
def poPathOk : PlatformOracle := { poNoCt2 with pathExists := fun _ => true }

/-- Overrides: only `VOICEWAVE_FORCE_GPU=1` is set. -/
def envForceGpu : Env := { forceCpu := none, forceGpu := some "1", autoGpu := none }

/-- No override variables set. -/
def envNone : Env := { forceCpu := none, forceGpu := none, autoGpu := none }

/-- A valid transcription request preferring the CPU backend. -/
def reqCpuPref : Req :=
  { defaultReq with
    id := some "c3", modelId := some "small.en",
    backendPreference := some "cpu", audioPath := some "a.wav" }

/-- C3 counterexample: under a force-GPU override (an "override state" the
claim quantifies over), a request with `backendPreference = "cpu"` is
executed on `cuda` and its success envelope reports `backendUsed = "cuda"`,
not `"cpu"`. -/
theorem transcribe_cpu_pref_forced_gpu_counterexample :
    reqCpuPref.backendPreference = some "cpu" ∧
    ((transcribe envForceGpu poPathOk eoAllOk initialState reqCpuPref).1).backendUsedField =
      some "cuda" ∧ some "cuda" ≠ some ("cpu" : String) := by
  refine ⟨rfl, by decide, by decide⟩

/-- The success body `reqCpuPref` produces against `eoAllOk` with no
overrides set. -/
def bodyCpuPref : SuccessBody :=
  { text := "", modelInitMs := 5, decodeComputeMs := 7, runtimeCacheHit := false,
    segmentCount := 0, avgLogProb := 0, noSpeechProb := 0, compressionRatio := 0,
    backendRequested := "cpu", backendUsed := "cpu", backendFallback := false,
    computeTypeRequested := "int8", computeTypeUsed := "int8" }

/-- Witness for the amended C3 theorem at a concrete input. -/
theorem transcribe_cpu_pref_stays_cpu_witness :
    bodyCpuPref.backendUsed = "cpu" ∧ bodyCpuPref.backendFallback = false :=
  transcribe_cpu_pref_stays_cpu envNone poPathOk eoAllOk initialState reqCpuPref
    (Or.inl rfl) rfl (some "c3") bodyCpuPref (by decide)

/-! ## C5: the model cache memoizes permanently -/

/-- A key hit: `load_model` returns the stored instance with hit flag
`true` and duration `0`, and changes nothing. -/
lemma load_model_hit (eo : EngineOracle) (st : WorkerState)
    (mid dev ct : String) (m : Nat)
    (h : st.modelCache.lookup (mid, dev, ct) = some m) :
    load_model eo st mid dev ct = (.ok (m, true, 0), st) := by
  simp [load_model, h]

/-- A successful first call on a key (a miss, so the hit flag is `false`)
stores the loaded instance under that key. -/
lemma load_model_miss_stores (eo : EngineOracle) (st st₁ : WorkerState)
    (mid dev ct : String) (m ms : Nat)
    (h : load_model eo st mid dev ct = (.ok (m, false, ms), st₁)) :
    st₁.modelCache.lookup (mid, dev, ct) = some m := by
  cases hl : st.modelCache.lookup (mid, dev, ct) with
  | some cached => simp [load_model, hl] at h
  | none =>
    cases hm : eo.loadModel mid dev ct with
    | error e => simp [load_model, hl, hm] at h
    | ok model =>
      simp [load_model, hl, hm] at h
      obtain ⟨⟨h1, h2⟩, h3⟩ := h
      subst h1
      subst h3
      simp [List.lookup]

/-- The model cache is insert-only: any stored entry survives any
`load_model` call. -/
lemma load_model_preserves (eo : EngineOracle) (st : WorkerState)
    (mid dev ct : String) (k : ModelKey) (m : Nat)
    (h : st.modelCache.lookup k = some m) :
    ((load_model eo st mid dev ct).2).modelCache.lookup k = some m := by
  cases hl : st.modelCache.lookup (mid, dev, ct) with
  | some cached => simpa [load_model, hl] using h
  | none =>
    cases hm : eo.loadModel mid dev ct with
    | error e => simpa [load_model, hl, hm] using h
    | ok model =>
      have hne : (k == (mid, dev, ct)) = false := by
        cases hkk : k == (mid, dev, ct)
        · rfl
        · exact absurd (eq_of_beq hkk ▸ h) (by simp [hl])
      simp [load_model, hl, hm, List.lookup, hne, h]

/-- `cuda_available` does not touch the model cache. -/
lemma cuda_available_modelCache (po : PlatformOracle) (st : WorkerState) :
    ((cuda_available po st).2).modelCache = st.modelCache := by
  cases h : st.gpuCapabilityCache <;> simp [cuda_available, h]

/-- `cuda_runtime_libs_ready` does not touch the model cache. -/
lemma cuda_runtime_libs_ready_modelCache (po : PlatformOracle) (st : WorkerState) :
    ((cuda_runtime_libs_ready po st).2).modelCache = st.modelCache := by
  cases h : st.cudaRuntimeLibsReadyCache <;> simp [cuda_runtime_libs_ready, h]

/-- `resolve_requested_backend` does not touch the model cache. -/
lemma resolve_requested_backend_modelCache (env : Env) (po : PlatformOracle)
    (st : WorkerState) (raw : Option String) :
    ((resolve_requested_backend env po st raw).2).modelCache = st.modelCache := by
  unfold resolve_requested_backend
  by_cases h1 : env_flag env.forceCpu false
  · simp [h1]
  · by_cases h2 : env_flag env.forceGpu false
    · simp [h1, h2]
    · by_cases h3 : normalize_backend_preference raw = "cpu"
      · simp [h1, h2, h3]
      · by_cases h4 : normalize_backend_preference raw = "cuda"
        · simp [h1, h2, h3, h4]
        · by_cases h5 : env_flag env.autoGpu true = false
          · simp [h1, h2, h3, h4, h5]
          · by_cases h6 : (cuda_available po st).1
            · simp [h1, h2, h3, h4, h5, h6, cuda_available_modelCache,
                cuda_runtime_libs_ready_modelCache]
            · simp [h1, h2, h3, h4, h5, h6, cuda_available_modelCache]

/-- A stored cache entry survives a load-plus-decode attempt. -/
lemma decode_attempt_preserves (eo : EngineOracle) (st : WorkerState)
    (mid dev ct : String) (audio : AudioInput) (kwargs : TranscribeKwargs)
    (k : ModelKey) (m : Nat) (h : st.modelCache.lookup k = some m) :
    ((decode_attempt eo st mid dev ct audio kwargs).2).modelCache.lookup k = some m := by
  cases hlr : (load_model eo st mid dev ct).1 with
  | error e =>
    simpa [decode_attempt, hlr] using load_model_preserves eo st mid dev ct k m h
  | ok x =>
    cases hd : eo.decode x.1 audio kwargs with
    | error e =>
      simpa [decode_attempt, hlr, hd] using load_model_preserves eo st mid dev ct k m h
    | ok segments =>
      simpa [decode_attempt, hlr, hd] using load_model_preserves eo st mid dev ct k m h

/-- A stored cache entry survives a whole `transcribe` call. -/
lemma transcribe_preserves_cache (env : Env) (po : PlatformOracle)
    (eo : EngineOracle) (st : WorkerState) (req : Req) (k : ModelKey) (m : Nat)
    (h : st.modelCache.lookup k = some m) :
    ((transcribe env po eo st req).2).modelCache.lookup k = some m := by
  have hrb : ((resolve_requested_backend env po st req.backendPreference).2).modelCache.lookup k
      = some m := by
    rw [resolve_requested_backend_modelCache]; exact h
  cases hmid : req.modelId with
  | none => simpa [transcribe, hmid] using h
  | some mid =>
    by_cases h1 : mid = ""
    · simpa [transcribe, hmid, h1] using h
    · by_cases h2 : mid ∈ ALLOWED_MODELS
      case neg => simpa [transcribe, hmid, h1, h2] using h
      case pos =>
      by_cases h3 : req.sampleRateHz = 16000
      case neg => simpa [transcribe, hmid, h1, h2, h3] using h
      case pos =>
      cases ha : audio_input_of po req.audioPath req.audioPcm16B64 with
          | error e => simpa [transcribe, hmid, h1, h2, h3, ha] using h
          | ok audio =>
            have hfa1 := decode_attempt_preserves eo
              (resolve_requested_backend env po st req.backendPreference).2 mid
              (resolve_requested_backend env po st req.backendPreference).1
              (resolve_compute_type po
                (resolve_requested_backend env po st req.backendPreference).1 req.computeType)
              audio (transcribe_kwargs_of req) k m hrb
            cases hfa : (decode_attempt eo
                (resolve_requested_backend env po st req.backendPreference).2 mid
                (resolve_requested_backend env po st req.backendPreference).1
                (resolve_compute_type po
                  (resolve_requested_backend env po st req.backendPreference).1 req.computeType)
                audio (transcribe_kwargs_of req)).1.1 with
            | ok segments => simpa [transcribe, hmid, h1, h2, h3, ha, hfa] using hfa1
            | error e1 =>
              by_cases h4 : (resolve_requested_backend env po st req.backendPreference).1 ≠ "cuda"
                ∨ req.allowBackendFallback = false
              · simpa [transcribe, hmid, h1, h2, h3, ha, hfa, h4] using hfa1
              · have hfb1 := decode_attempt_preserves eo
                  (decode_attempt eo
                    (resolve_requested_backend env po st req.backendPreference).2 mid
                    (resolve_requested_backend env po st req.backendPreference).1
                    (resolve_compute_type po
                      (resolve_requested_backend env po st req.backendPreference).1
                      req.computeType)
                    audio (transcribe_kwargs_of req)).2 mid "cpu"
                  (resolve_compute_type po "cpu" req.computeType)
                  audio (transcribe_kwargs_of req) k m hfa1
                cases hfb : (decode_attempt eo
                    (decode_attempt eo
                      (resolve_requested_backend env po st req.backendPreference).2 mid
                      (resolve_requested_backend env po st req.backendPreference).1
                      (resolve_compute_type po
                        (resolve_requested_backend env po st req.backendPreference).1
                        req.computeType)
                      audio (transcribe_kwargs_of req)).2 mid "cpu"
                    (resolve_compute_type po "cpu" req.computeType)
                    audio (transcribe_kwargs_of req)).1.1 with
                | ok segments =>
                  simpa [transcribe, hmid, h1, h2, h3, ha, hfa, h4, hfb] using hfb1
                | error e2 =>
                  simpa [transcribe, hmid, h1, h2, h3, ha, hfa, h4, hfb] using hfb1

/-- A stored cache entry survives a whole `prefetch` call. -/
lemma prefetch_preserves_cache (env : Env) (po : PlatformOracle)
    (eo : EngineOracle) (st : WorkerState) (req : Req) (k : ModelKey) (m : Nat)
    (h : st.modelCache.lookup k = some m) :
    ((prefetch env po eo st req).2).modelCache.lookup k = some m := by
  have hrb : ((resolve_requested_backend env po st req.backendPreference).2).modelCache.lookup k
      = some m := by
    rw [resolve_requested_backend_modelCache]; exact h
  cases hmid : req.modelId with
  | none => simpa [prefetch, hmid] using h
  | some mid =>
    by_cases h1 : mid = ""
    · simpa [prefetch, hmid, h1] using h
    · by_cases h2 : mid ∈ ALLOWED_MODELS
      case neg => simpa [prefetch, hmid, h1, h2] using h
      case pos =>
      have hlr1 := load_model_preserves eo
          (resolve_requested_backend env po st req.backendPreference).2 mid
          (resolve_requested_backend env po st req.backendPreference).1
          (resolve_compute_type po
            (resolve_requested_backend env po st req.backendPreference).1 req.computeType)
          k m hrb
      cases hlr : (load_model eo
          (resolve_requested_backend env po st req.backendPreference).2 mid
          (resolve_requested_backend env po st req.backendPreference).1
          (resolve_compute_type po
            (resolve_requested_backend env po st req.backendPreference).1
            req.computeType)).1 with
      | ok x => simpa [prefetch, hmid, h1, h2, hlr] using hlr1
      | error e1 =>
        by_cases h4 : (resolve_requested_backend env po st req.backendPreference).1 ≠ "cuda"
          ∨ req.allowBackendFallback = false
        · simpa [prefetch, hmid, h1, h2, hlr, h4] using hlr1
        · have hlr2 := load_model_preserves eo
            (load_model eo
              (resolve_requested_backend env po st req.backendPreference).2 mid
              (resolve_requested_backend env po st req.backendPreference).1
              (resolve_compute_type po
                (resolve_requested_backend env po st req.backendPreference).1
                req.computeType)).2 mid "cpu"
            (resolve_compute_type po "cpu" req.computeType) k m hlr1
          cases hl2 : (load_model eo
              (load_model eo
                (resolve_requested_backend env po st req.backendPreference).2 mid
                (resolve_requested_backend env po st req.backendPreference).1
                (resolve_compute_type po
                  (resolve_requested_backend env po st req.backendPreference).1
                  req.computeType)).2 mid "cpu"
              (resolve_compute_type po "cpu" req.computeType)).1 with
          | ok x2 => simpa [prefetch, hmid, h1, h2, hlr, h4, hl2] using hlr2
          | error e2 => simpa [prefetch, hmid, h1, h2, hlr, h4, hl2] using hlr2

/-- A stored cache entry survives the handling of any protocol line. -/
lemma handle_line_preserves_cache (env : Env) (po : PlatformOracle)
    (eo : EngineOracle) (st : WorkerState) (l : InLine) (k : ModelKey) (m : Nat)
    (h : st.modelCache.lookup k = some m) :
    ((handle_line env po eo st l).2.1).modelCache.lookup k = some m := by
  cases l with
  | blank => exact h
  | malformed exc tb => exact h
  | request req =>
    by_cases hc1 : req.command.getD "transcribe" = "shutdown"
    · simpa [handle_line, hc1] using h
    · by_cases hc2 : req.command.getD "transcribe" = "prefetch"
      · simpa [handle_line, hc1, hc2] using
          prefetch_preserves_cache env po eo st req k m h
      · by_cases hc3 : req.command.getD "transcribe" ≠ "transcribe"
        · simpa [handle_line, hc1, hc2, hc3] using h
        · simpa [handle_line, hc1, hc2, hc3] using
            transcribe_preserves_cache env po eo st req k m h

/-- A stored cache entry survives any run of the protocol loop. -/
lemma run_lines_preserves_cache (env : Env) (po : PlatformOracle)
    (eo : EngineOracle) (lines : List InLine) :
    ∀ st, ∀ k : ModelKey, ∀ m : Nat, st.modelCache.lookup k = some m →
      ((run_lines env po eo st lines).2).modelCache.lookup k = some m := by
  induction lines with
  | nil => intro st k m h; simpa [run_lines] using h
  | cons l rest ih =>
    intro st k m h
    by_cases hstop : (handle_line env po eo st l).2.2 = true
    · simpa [run_lines, hstop] using handle_line_preserves_cache env po eo st l k m h
    · simpa [run_lines, hstop] using
        ih _ k m (handle_line_preserves_cache env po eo st l k m h)

/-- C5: once a first `load_model` call for a key succeeds (a miss that
loaded and stored instance `m`), the very next call with the identical key
— and every later call, after any amount of further request processing —
returns the same stored instance with `wasCacheHit = true` and
`loadDurationMs = 0`, leaving the state unchanged: entries are never
evicted or reloaded within the process lifetime. -/
theorem load_model_second_call_hits (eo : EngineOracle) (st st₁ : WorkerState)
    (mid dev ct : String) (m ms : Nat)
    (h : load_model eo st mid dev ct = (.ok (m, false, ms), st₁)) :
    load_model eo st₁ mid dev ct = (.ok (m, true, 0), st₁) ∧
    ∀ env po lines,
      load_model eo (run_lines env po eo st₁ lines).2 mid dev ct =
        (.ok (m, true, 0), (run_lines env po eo st₁ lines).2) := by
  have hstore := load_model_miss_stores eo st st₁ mid dev ct m ms h
  exact ⟨load_model_hit eo st₁ mid dev ct m hstore,
    fun env po lines =>
      load_model_hit eo _ mid dev ct m
        (run_lines_preserves_cache env po eo lines st₁ (mid, dev, ct) m hstore)⟩

/-- The worker state after `eoAllOk` loads `small.en` on the CPU into a
fresh cache. -/
def stLoaded : WorkerState :=
  { modelCache := [(("small.en", "cpu", "int8"), 1)], gpuCapabilityCache := none,
    cudaRuntimeLibsReadyCache := none,
    log := [EngineCall.load "small.en" "cpu" "int8"] }

/-- Witness for C5 at a concrete input: after a first successful load, the
second identical call is a zero-duration cache hit on the same instance. -/
theorem load_model_second_call_hits_witness :
    load_model eoAllOk stLoaded "small.en" "cpu" "int8" = (.ok (1, true, 0), stLoaded) :=
  (load_model_second_call_hits eoAllOk initialState stLoaded
    "small.en" "cpu" "int8" 1 5 (by decide)).1

/-! ## C6: validation failures touch nothing -/

/-- C6: transcribe and prefetch requests with a missing/empty/unknown model
id fail immediately, and transcribe requests with a sample rate other than
16000 fail immediately, all with a completely unchanged worker state (model
cache, both probe caches and the engine-interaction log untouched); a
`"ghost-model"` id produces exactly the documented error message. -/
theorem validation_rejects_without_side_effects (env : Env) (po : PlatformOracle)
    (eo : EngineOracle) (st : WorkerState) (req : Req) :
    ((req.modelId = none ∨ req.modelId = some "" ∨
        (∀ mid, req.modelId = some mid → mid ∉ ALLOWED_MODELS)) →
      (∃ e, transcribe env po eo st req = (Response.failure req.id e, st)) ∧
      (∃ e, prefetch env po eo st req = (Response.failure req.id e, st))) ∧
    (req.sampleRateHz ≠ 16000 →
      ∃ e, transcribe env po eo st req = (Response.failure req.id e, st)) ∧
    (req.modelId = some "ghost-model" →
      transcribe env po eo st req =
        (Response.failure req.id
          "Unsupported model ID: ghost-model. Allowed: small.en, large-v3", st)) := by
  refine ⟨?_, ?_, ?_⟩
  · rintro (hmid | hmid | hmid)
    · exact ⟨⟨"Model ID is required.", by simp [transcribe, hmid]⟩,
        ⟨"Model ID is required.", by simp [prefetch, hmid]⟩⟩
    · exact ⟨⟨"Model ID is required.", by simp [transcribe, hmid]⟩,
        ⟨"Model ID is required.", by simp [prefetch, hmid]⟩⟩
    · cases hm : req.modelId with
      | none => exact ⟨⟨"Model ID is required.", by simp [transcribe, hm]⟩,
          ⟨"Model ID is required.", by simp [prefetch, hm]⟩⟩
      | some mid =>
        have hnotin := hmid mid hm
        by_cases h1 : mid = ""
        · exact ⟨⟨"Model ID is required.", by simp [transcribe, hm, h1]⟩,
            ⟨"Model ID is required.", by simp [prefetch, hm, h1]⟩⟩
        · exact ⟨⟨"Unsupported model ID: " ++ mid ++ ". Allowed: small.en, large-v3",
              by simp [transcribe, hm, h1, hnotin]⟩,
            ⟨"Unsupported model ID: " ++ mid ++ ". Allowed: small.en, large-v3",
              by simp [prefetch, hm, h1, hnotin]⟩⟩
  · intro hsr
    cases hm : req.modelId with
    | none => exact ⟨"Model ID is required.", by simp [transcribe, hm]⟩
    | some mid =>
      by_cases h1 : mid = ""
      · exact ⟨"Model ID is required.", by simp [transcribe, hm, h1]⟩
      · by_cases h2 : mid ∈ ALLOWED_MODELS
        · exact ⟨"Unsupported sample rate: " ++ toString req.sampleRateHz
              ++ ". Expected 16000 Hz.",
            by simp [transcribe, hm, h1, h2, hsr]⟩
        · exact ⟨"Unsupported model ID: " ++ mid ++ ". Allowed: small.en, large-v3",
            by simp [transcribe, hm, h1, h2]⟩
  · intro hg
    have hnotin : ("ghost-model" : String) ∉ ALLOWED_MODELS := by decide
    simp [transcribe, hg, hnotin]

/-- A request whose model id is outside the allow-list. -/
def reqGhost : Req := { defaultReq with id := some "c6", modelId := some "ghost-model" }

/-- Witness for C6 at a concrete input: the exact ghost-model scenario. -/
theorem validation_rejects_without_side_effects_witness :
    transcribe envNone poNoCt2 eoAllOk initialState reqGhost =
      (Response.failure reqGhost.id
        "Unsupported model ID: ghost-model. Allowed: small.en, large-v3", initialState) :=
  (validation_rejects_without_side_effects envNone poNoCt2 eoAllOk initialState
    reqGhost).2.2 rfl

/-! ## C7: the request id round-trips (except for shutdown) -/

/-- Every `transcribe` response carries the request's `id`. -/
lemma transcribe_idField (env : Env) (po : PlatformOracle) (eo : EngineOracle)
    (st : WorkerState) (req : Req) :
    ((transcribe env po eo st req).1).idField = some req.id := by
  cases hmid : req.modelId with
  | none => simp [transcribe, hmid, Response.idField]
  | some mid =>
    by_cases h1 : mid = ""
    · simp [transcribe, hmid, h1, Response.idField]
    · by_cases h2 : mid ∈ ALLOWED_MODELS
      case neg => simp [transcribe, hmid, h1, h2, Response.idField]
      case pos =>
      by_cases h3 : req.sampleRateHz = 16000
      case neg => simp [transcribe, hmid, h1, h2, h3, Response.idField]
      case pos =>
      cases ha : audio_input_of po req.audioPath req.audioPcm16B64 with
      | error e => simp [transcribe, hmid, h1, h2, h3, ha, Response.idField]
      | ok audio =>
        cases hfa : (decode_attempt eo
            (resolve_requested_backend env po st req.backendPreference).2 mid
            (resolve_requested_backend env po st req.backendPreference).1
            (resolve_compute_type po
              (resolve_requested_backend env po st req.backendPreference).1 req.computeType)
            audio (transcribe_kwargs_of req)).1.1 with
        | ok segments =>
          simp [transcribe, hmid, h1, h2, h3, ha, hfa, aggregate_success, Response.idField]
        | error e1 =>
          by_cases h4 : (resolve_requested_backend env po st req.backendPreference).1 ≠ "cuda"
            ∨ req.allowBackendFallback = false
          · simp [transcribe, hmid, h1, h2, h3, ha, hfa, h4, Response.idField]
          · cases hfb : (decode_attempt eo
                (decode_attempt eo
                  (resolve_requested_backend env po st req.backendPreference).2 mid
                  (resolve_requested_backend env po st req.backendPreference).1
                  (resolve_compute_type po
                    (resolve_requested_backend env po st req.backendPreference).1
                    req.computeType)
                  audio (transcribe_kwargs_of req)).2 mid "cpu"
                (resolve_compute_type po "cpu" req.computeType)
                audio (transcribe_kwargs_of req)).1.1 with
            | ok segments =>
              simp [transcribe, hmid, h1, h2, h3, ha, hfa, h4, hfb, aggregate_success,
                Response.idField]
            | error e2 =>
              simp [transcribe, hmid, h1, h2, h3, ha, hfa, h4, hfb, Response.idField]

/-- Every `prefetch` response carries the request's `id`. -/
lemma prefetch_idField (env : Env) (po : PlatformOracle) (eo : EngineOracle)
    (st : WorkerState) (req : Req) :
    ((prefetch env po eo st req).1).idField = some req.id := by
  cases hmid : req.modelId with
  | none => simp [prefetch, hmid, Response.idField]
  | some mid =>
    by_cases h1 : mid = ""
    · simp [prefetch, hmid, h1, Response.idField]
    · by_cases h2 : mid ∈ ALLOWED_MODELS
      case neg => simp [prefetch, hmid, h1, h2, Response.idField]
      case pos =>
      cases hlr : (load_model eo
          (resolve_requested_backend env po st req.backendPreference).2 mid
          (resolve_requested_backend env po st req.backendPreference).1
          (resolve_compute_type po
            (resolve_requested_backend env po st req.backendPreference).1
            req.computeType)).1 with
      | ok x => simp [prefetch, hmid, h1, h2, hlr, Response.idField]
      | error e1 =>
        by_cases h4 : (resolve_requested_backend env po st req.backendPreference).1 ≠ "cuda"
          ∨ req.allowBackendFallback = false
        · simp [prefetch, hmid, h1, h2, hlr, h4, Response.idField]
        · cases hl2 : (load_model eo
              (load_model eo
                (resolve_requested_backend env po st req.backendPreference).2 mid
                (resolve_requested_backend env po st req.backendPreference).1
                (resolve_compute_type po
                  (resolve_requested_backend env po st req.backendPreference).1
                  req.computeType)).2 mid "cpu"
              (resolve_compute_type po "cpu" req.computeType)).1 with
          | ok x2 => simp [prefetch, hmid, h1, h2, hlr, h4, hl2, Response.idField]
          | error e2 => simp [prefetch, hmid, h1, h2, hlr, h4, hl2, Response.idField]

/-- C7 (amended): for every request line whose (defaulted) command is not
`shutdown` — i.e. transcribe, prefetch, and unsupported commands — every
response emitted for it carries the request's `id` unchanged.  (The
`shutdown` acknowledgement object has no id member, so the claim does not
extend to it.) -/
theorem handle_line_id_roundtrip (env : Env) (po : PlatformOracle)
    (eo : EngineOracle) (st : WorkerState) (req : Req)
    (hcmd : req.command.getD "transcribe" ≠ "shutdown") :
    ∀ resp ∈ (handle_line env po eo st (InLine.request req)).1,
      resp.idField = some req.id := by
  intro resp hresp
  by_cases hc2 : req.command.getD "transcribe" = "prefetch"
  · simp [handle_line, hcmd, hc2] at hresp
    rw [hresp]
    exact prefetch_idField env po eo st req
  · by_cases hc3 : req.command.getD "transcribe" = "transcribe"
    · simp [handle_line, hcmd, hc2, hc3] at hresp
      rw [hresp]
      exact transcribe_idField env po eo st req
    · simp [handle_line, hcmd, hc2, hc3] at hresp
      rw [hresp]
      rfl

/-- A shutdown request carrying an id. -/
def reqShutdown : Req := { defaultReq with id := some "c7", command := some "shutdown" }

/-- C7 counterexample: the response to a `shutdown` request is the
acknowledgement object, which has no `id` member, so the request id
`"c7"` does not appear unchanged in its response. -/
theorem shutdown_ack_drops_id :
    reqShutdown.id = some "c7" ∧
    (handle_line envNone poNoCt2 eoAllOk initialState (InLine.request reqShutdown)).1 =
      [Response.shutdownAck] ∧
    Response.idField Response.shutdownAck = none := ⟨rfl, rfl, rfl⟩

/-- Witness for the amended C7 theorem at a concrete input. -/
theorem handle_line_id_roundtrip_witness :
    (Response.failure (some "c6")
      "Unsupported model ID: ghost-model. Allowed: small.en, large-v3").idField =
      some reqGhost.id :=
  handle_line_id_roundtrip envNone poNoCt2 eoAllOk initialState reqGhost (by decide)
    (Response.failure (some "c6")
      "Unsupported model ID: ghost-model. Allowed: small.en, large-v3")
    (by decide)

/-! ## C8: protocol-level failures are reported and do not stop the loop -/

/-- C8: a malformed input line (or any line whose handling raised inside
the per-line `try`) produces exactly one failure response with `id` null
and a `traceback` field, leaves the worker state untouched, and the loop
continues with the remaining lines. -/
theorem malformed_line_reports_and_continues (env : Env) (po : PlatformOracle)
    (eo : EngineOracle) (st : WorkerState) (exc tb : String) (rest : List InLine) :
    run_lines env po eo st (InLine.malformed exc tb :: rest) =
      (Response.failureTb none ("Worker exception: " ++ exc) tb ::
          (run_lines env po eo st rest).1,
        (run_lines env po eo st rest).2) := by
  simp [run_lines, handle_line]

/-! ## C10: a missing command defaults to transcribe -/

/-- C10: a protocol message without a `command` member is dispatched to the
transcribe handler (not rejected as unsupported). -/
theorem missing_command_defaults_to_transcribe (env : Env) (po : PlatformOracle)
    (eo : EngineOracle) (st : WorkerState) (req : Req)
    (h : req.command = none) :
    handle_line env po eo st (InLine.request req) =
      ([(transcribe env po eo st req).1], (transcribe env po eo st req).2, false) := by
  simp [handle_line, h]

/-- Witness for C10 at a concrete input. -/
theorem missing_command_defaults_to_transcribe_witness :
    handle_line envNone poNoCt2 eoAllOk initialState (InLine.request reqGhost) =
      ([(transcribe envNone poNoCt2 eoAllOk initialState reqGhost).1],
        (transcribe envNone poNoCt2 eoAllOk initialState reqGhost).2, false) :=
  missing_command_defaults_to_transcribe envNone poNoCt2 eoAllOk initialState reqGhost rfl

/-! ## C1: single GPU→CPU fallback on failure -/

/-- C1: for a valid transcribe request whose first attempt fails
(`decode_attempt` covers both a raising model load and a raising decode):
if the failing backend was `cuda` and fallback is permitted, the result is
exactly the outcome of one retry on `cpu` with the compute type re-resolved
for `cpu` — a success envelope if the retry succeeds, else a failure
envelope naming the original (requested backend / requested compute type)
pair, the fallback (`cpu` / re-resolved compute type) pair and the fallback
engine error text; if fallback is not permitted or the original backend was
already `cpu`, there is no retry and the result is a failure envelope
naming the attempted backend/compute-type pair and the engine error text. -/
theorem transcribe_failure_fallback (env : Env) (po : PlatformOracle)
    (eo : EngineOracle) (st : WorkerState) (req : Req)
    (mid : String) (audio : AudioInput) (b ct1 : String) (st1 st2 : WorkerState)
    (e1 : String) (hit1 : Bool) (ms1 : Nat)
    (hmid : req.modelId = some mid) (hmid1 : mid ≠ "")
    (hallow : mid ∈ ALLOWED_MODELS)
    (hsr : req.sampleRateHz = 16000)
    (haudio : audio_input_of po req.audioPath req.audioPcm16B64 = .ok audio)
    (hb : resolve_requested_backend env po st req.backendPreference = (b, st1))
    (hct : ct1 = resolve_compute_type po b req.computeType)
    (hfail : decode_attempt eo st1 mid b ct1 audio (transcribe_kwargs_of req) =
      ((.error e1, hit1, ms1), st2)) :
    (b = "cuda" → req.allowBackendFallback = true →
      transcribe env po eo st req =
        (let ct2 := resolve_compute_type po "cpu" req.computeType
         let fb := decode_attempt eo st2 mid "cpu" ct2 audio (transcribe_kwargs_of req)
         match fb.1.1 with
         | .ok segments =>
            (aggregate_success req.id segments (ms1 + fb.1.2.2) eo.decodeMsClock
              (hit1 && fb.1.2.1) b "cpu" true req.computeType ct2, fb.2)
         | .error e2 =>
            (Response.failure req.id
              ("Transcription failed (" ++ b ++ "/" ++ req.computeType
                ++ ") with fallback (" ++ "cpu" ++ "/" ++ ct2 ++ "): " ++ e2),
              fb.2))) ∧
    ((b ≠ "cuda" ∨ req.allowBackendFallback = false) →
      transcribe env po eo st req =
        (Response.failure req.id
          ("Transcription failed (" ++ b ++ "/" ++ ct1 ++ "): " ++ e1), st2)) := by
  constructor
  · intro hcuda hfb
    subst hcuda
    subst hct
    cases hfb2 : (decode_attempt eo st2 mid "cpu"
        (resolve_compute_type po "cpu" req.computeType)
        audio (transcribe_kwargs_of req)).1.1 with
    | ok segments =>
      simp [transcribe, hmid, hmid1, hallow, hsr, haudio, hb, hfail, hfb, hfb2]
    | error e2 =>
      simp [transcribe, hmid, hmid1, hallow, hsr, haudio, hb, hfail, hfb, hfb2]
  · intro hnofb
    subst hct
    simp [transcribe, hmid, hmid1, hallow, hsr, haudio, hb, hfail, hnofb]

/-- An engine where every model construction raises, with the device name
in the exception text. -/
def eoAllFail : EngineOracle :=
  { loadModel := fun _ dev _ => .error (dev ++ " load boom"),
    loadMs := fun _ _ _ => 3, decode := fun _ _ _ => .error "decode boom",
    decodeMsClock := 4 }

/-- A valid transcription request preferring the CUDA backend. -/
def reqCudaPref : Req :=
  { defaultReq with
    id := some "c1", modelId := some "small.en",
    backendPreference := some "cuda", audioPath := some "a.wav" }

/-- State after the failed CUDA attempt of `reqCudaPref` against
`eoAllFail`: only the attempted constructor call is logged. -/
def stAfterCudaFail : WorkerState :=
  { modelCache := [], gpuCapabilityCache := none, cudaRuntimeLibsReadyCache := none,
    log := [EngineCall.load "small.en" "cuda" "int8"] }

/-- Final state after the failed CPU fallback as well. -/
def stAfterBothFail : WorkerState :=
  { modelCache := [], gpuCapabilityCache := none, cudaRuntimeLibsReadyCache := none,
    log := [EngineCall.load "small.en" "cuda" "int8",
      EngineCall.load "small.en" "cpu" "int8"] }

/-- Witness for C1 at a concrete input: both attempts fail, and the failure
envelope names the original pair, the fallback pair and the fallback
error. -/
theorem transcribe_failure_fallback_witness :
    transcribe envNone poPathOk eoAllFail initialState reqCudaPref =
      (Response.failure (some "c1")
        "Transcription failed (cuda/int8) with fallback (cpu/int8): cpu load boom",
       stAfterBothFail) := by
  have h := (transcribe_failure_fallback envNone poPathOk eoAllFail initialState
    reqCudaPref "small.en" (AudioInput.path "a.wav") "cuda" "int8" initialState
    stAfterCudaFail "cuda load boom" false 0 rfl (by decide) (by decide) rfl
    (by decide) (by decide) rfl (by decide)).1 rfl rfl
  exact h.trans (by decide)

/-! ## C9: success-envelope load metrics -/

/-- C9 (amended): for every successful transcribe request, `modelInitMs` is
the total model-load time across the attempts actually performed (first
plus, if fallback occurred, fallback; a load that raised contributes `0`),
and `runtimeCacheHit` is the conjunction of the per-attempt cache-hit flags
— it is `true` only when every model load performed during the request was
a cache hit (a first attempt whose load raised counts as a non-hit). -/
theorem transcribe_success_metrics (env : Env) (po : PlatformOracle)
    (eo : EngineOracle) (st : WorkerState) (req : Req)
    (mid : String) (audio : AudioInput) (b ct1 : String) (st1 : WorkerState)
    (hmid : req.modelId = some mid) (hmid1 : mid ≠ "")
    (hallow : mid ∈ ALLOWED_MODELS)
    (hsr : req.sampleRateHz = 16000)
    (haudio : audio_input_of po req.audioPath req.audioPcm16B64 = .ok audio)
    (hb : resolve_requested_backend env po st req.backendPreference = (b, st1))
    (hct : ct1 = resolve_compute_type po b req.computeType) :
    (∀ segs hit1 ms1 st2,
      decode_attempt eo st1 mid b ct1 audio (transcribe_kwargs_of req) =
        ((.ok segs, hit1, ms1), st2) →
      ((transcribe env po eo st req).1).okField = true ∧
      ((transcribe env po eo st req).1).modelInitMsField = some ms1 ∧
      ((transcribe env po eo st req).1).runtimeCacheHitField = some hit1) ∧
    (∀ e1 hit1 ms1 st2 segs2 hit2 ms2 st3,
      decode_attempt eo st1 mid b ct1 audio (transcribe_kwargs_of req) =
        ((.error e1, hit1, ms1), st2) →
      b = "cuda" → req.allowBackendFallback = true →
      decode_attempt eo st2 mid "cpu" (resolve_compute_type po "cpu" req.computeType)
          audio (transcribe_kwargs_of req) = ((.ok segs2, hit2, ms2), st3) →
      ((transcribe env po eo st req).1).okField = true ∧
      ((transcribe env po eo st req).1).modelInitMsField = some (ms1 + ms2) ∧
      ((transcribe env po eo st req).1).runtimeCacheHitField = some (hit1 && hit2)) := by
  subst hct
  constructor
  · intro segs hit1 ms1 st2 hok
    simp [transcribe, hmid, hmid1, hallow, hsr, haudio, hb, hok, aggregate_success,
      Response.okField, Response.modelInitMsField, Response.runtimeCacheHitField]
  · intro e1 hit1 ms1 st2 segs2 hit2 ms2 st3 hfail hcuda hfb hok2
    subst hcuda
    simp [transcribe, hmid, hmid1, hallow, hsr, haudio, hb, hfail, hfb, hok2,
      aggregate_success, Response.okField, Response.modelInitMsField,
      Response.runtimeCacheHitField]

/-- An engine for the C9 scenario: the CPU constructor succeeds with handle
8, the CUDA one raises; decoding succeeds only on handle 8. -/
def eoC9 : EngineOracle :=
  { loadModel := fun _ dev _ => if dev = "cpu" then .ok 8 else .error "cuda ctor boom",
    loadMs := fun _ _ _ => 5,
    decode := fun model _ _ => if model = 8 then .ok [] else .error "gpu decode boom",
    decodeMsClock := 9 }

/-- A state in which the CUDA variant of `small.en` is already cached (as
handle 7). -/
def stWithCudaCached : WorkerState :=
  { modelCache := [(("small.en", "cuda", "int8"), 7)], gpuCapabilityCache := none,
    cudaRuntimeLibsReadyCache := none, log := [] }

/-- A valid CUDA-preferring request used for the C9 scenario. -/
def reqC9 : Req :=
  { defaultReq with
    id := some "c9", modelId := some "small.en",
    backendPreference := some "cuda", audioPath := some "a.wav" }

/-- C9 counterexample: a request whose first (cuda) attempt hits the model
cache but fails to decode, and whose cpu fallback loads fresh and succeeds.
A model load during the request *was* a cache hit, yet the success envelope
reports `runtimeCacheHit = false` — the flag is the conjunction of the
per-attempt hits, not "whether any load was a cache hit". -/
theorem runtime_cache_hit_not_any_counterexample :
    (decode_attempt eoC9 stWithCudaCached "small.en" "cuda" "int8"
      (AudioInput.path "a.wav") (transcribe_kwargs_of reqC9)).1.2.1 = true ∧
    ((transcribe envNone poPathOk eoC9 stWithCudaCached reqC9).1).okField = true ∧
    ((transcribe envNone poPathOk eoC9 stWithCudaCached reqC9).1).backendFallbackField =
      some true ∧
    ((transcribe envNone poPathOk eoC9 stWithCudaCached reqC9).1).runtimeCacheHitField =
      some false := by
  refine ⟨by decide, by decide, by decide, by decide⟩

/-- Witness for the amended C9 theorem at a concrete input (the fallback
case: `modelInitMs = 0 + 5` and `runtimeCacheHit = true && false`). -/
theorem transcribe_success_metrics_witness :
    ((transcribe envNone poPathOk eoC9 stWithCudaCached reqC9).1).okField = true ∧
    ((transcribe envNone poPathOk eoC9 stWithCudaCached reqC9).1).modelInitMsField =
      some (0 + 5) ∧
    ((transcribe envNone poPathOk eoC9 stWithCudaCached reqC9).1).runtimeCacheHitField =
      some (true && false) :=
  (transcribe_success_metrics envNone poPathOk eoC9 stWithCudaCached reqC9
    "small.en" (AudioInput.path "a.wav") "cuda" "int8" stWithCudaCached
    rfl (by decide) (by decide) rfl (by decide) (by decide) rfl).2
    "gpu decode boom" true 0
    { modelCache := [(("small.en", "cuda", "int8"), 7)],
      gpuCapabilityCache := none, cudaRuntimeLibsReadyCache := none,
      log := [EngineCall.decode 7] }
    [] false 5
    { modelCache := [(("small.en", "cpu", "int8"), 8),
        (("small.en", "cuda", "int8"), 7)],
      gpuCapabilityCache := none, cudaRuntimeLibsReadyCache := none,
      log := [EngineCall.decode 7, EngineCall.load "small.en" "cpu" "int8",
        EngineCall.decode 8] }
    (by decide) rfl rfl (by decide)
